import Mathlib

/-!
Verification of the todo-app repository (Rust, Actix Web + Diesel + SQLite).

Shallow embedding: the `tasks` table is a list of rows; the Diesel actions of
`src/actions.rs` become pure functions over that list, with an explicit
`Except String Unit` parameter standing for the outcome of the underlying
engine-level execution (I/O), and a second such parameter in the handlers for
the outcome of the r2d2 pool checkout (`pool.get()`).  The random 128 bits
drawn by `Uuid::new_v4()` are an explicit `Nat` parameter.  HTTP responses
become an inductive type with one constructor per response shape actually
produced by the handlers in `src/api/tasks.rs`.
-/

namespace TodoApp

/-- The `Task` row, from `src/model/task.rs` (identical in `src/models.rs`):
`id : String`, `name : String`, `done : bool`. -/
structure Task where
  id : String
  name : String
  done : Bool
deriving DecidableEq, Repr

/-- The `tasks` table: its rows in storage order. -/
abbrev Table := List Task

/-! ## UUID version 4 generation, from the `uuid` crate

`Uuid::new_v4()` draws 16 random bytes, then forces the version nibble of
byte 6 to `0b0100` and the two variant bits of byte 8 to `0b10`;
`to_string()` renders the bytes as lowercase hex in 8-4-4-4-12 groups. -/

/-- Byte `i` (big-endian, `0 ≤ i ≤ 15`) of the 128-bit random value `r`. -/
def uuidByte (r i : Nat) : Nat := r / 2 ^ (8 * (15 - i)) % 256

/-- The 16 bytes of a version-4 UUID built from random value `r`:
byte 6 keeps its low nibble and gets high nibble `4` (`0x40 + (b & 0x0f)`),
byte 8 keeps its low six bits and gets variant bits `10` (`0x80 + (b & 0x3f)`). -/
def v4Bytes (r : Nat) : List Nat :=
  [uuidByte r 0, uuidByte r 1, uuidByte r 2, uuidByte r 3,
   uuidByte r 4, uuidByte r 5,
   uuidByte r 6 % 16 + 64, uuidByte r 7,
   uuidByte r 8 % 64 + 128, uuidByte r 9,
   uuidByte r 10, uuidByte r 11, uuidByte r 12, uuidByte r 13,
   uuidByte r 14, uuidByte r 15]

/-- Lowercase hex digit for `n < 16`. -/
def hexDigit (n : Nat) : Char :=
  if n < 10 then Char.ofNat (48 + n) else Char.ofNat (87 + n)

/-- Two lowercase hex characters of one byte. -/
def byteHexChars (b : Nat) : List Char :=
  [hexDigit (b / 16 % 16), hexDigit (b % 16)]

/-- Hex rendering of a byte sequence. -/
def bytesHexChars : List Nat → List Char
  | [] => []
  | b :: bs => byteHexChars b ++ bytesHexChars bs

/-- The characters of the hyphenated rendering of a v4 UUID built from `r`:
groups of bytes `[0,4) - [4,6) - [6,8) - [8,10) - [10,16)`. -/
def uuidV4Chars (r : Nat) : List Char :=
  bytesHexChars [uuidByte r 0, uuidByte r 1, uuidByte r 2, uuidByte r 3]
    ++ Char.ofNat 45 ::
  bytesHexChars [uuidByte r 4, uuidByte r 5]
    ++ Char.ofNat 45 ::
  bytesHexChars [uuidByte r 6 % 16 + 64, uuidByte r 7]
    ++ Char.ofNat 45 ::
  bytesHexChars [uuidByte r 8 % 64 + 128, uuidByte r 9]
    ++ Char.ofNat 45 ::
  bytesHexChars [uuidByte r 10, uuidByte r 11, uuidByte r 12, uuidByte r 13,
                 uuidByte r 14, uuidByte r 15]

/-- `Uuid::new_v4().to_string()` for random draw `r`. -/
def uuid_new_v4 (r : Nat) : String := String.mk (uuidV4Chars r)

/-! ## Storage engine: the primary key on `tasks.id` -/

/-- Modelled from the spec: `src/schema.rs` (and the migration defining the
`tasks` table) is absent from the sources; the spec states the identifier is
unique, "enforced by the underlying storage engine's primary key, not by any
logic in this codebase".  SQLite's `INSERT` into a table whose primary key is
`id` fails with a constraint error when a row with the same `id` exists, and
otherwise appends the row. -/
def pk_insert (t : Table) (row : Task) : Except String Table :=
  if t.any (fun r => r.id == row.id) then
    Except.error "UNIQUE constraint failed: tasks.id"
  else
    Except.ok (t ++ [row])

/-! ## Actions, from `src/actions.rs`

Each takes `eng : Except String Unit`, the outcome of the engine-level
execution of its single SQL statement (`Except.error e` models a Diesel
`DbError` with message `e`). -/

/-- `find_all_tasks`: `tasks.load::<Task>(conn)` — the whole table (the `?`
propagates an engine error). -/
def find_all_tasks (eng : Except String Unit) (t : Table) :
    Except String (List Task) :=
  match eng with
  | Except.error e => Except.error e
  | Except.ok _ => Except.ok t

/-- `find_task_by_uid`: `tasks.filter(id.eq(uid.to_string())).first().optional()`
— the first row whose `id` equals the UID's string form, `none` if there is no
such row.  `uid` is already the string form `uid.to_string()`. -/
def find_task_by_uid (eng : Except String Unit) (t : Table) (uid : String) :
    Except String (Option Task) :=
  match eng with
  | Except.error e => Except.error e
  | Except.ok _ => Except.ok ((t.filter fun row => row.id == uid).head?)

/-- `insert_new_task`: builds the row with `id = Uuid::new_v4().to_string()`
(random draw `r`), `name = nm`, `done = dn`, executes the insert, and returns
the row it built. -/
def insert_new_task (eng : Except String Unit) (t : Table)
    (nm : String) (dn : Bool) (r : Nat) : Except String (Task × Table) :=
  match eng with
  | Except.error e => Except.error e
  | Except.ok _ =>
    let new_task : Task := ⟨uuid_new_v4 r, nm, dn⟩
    match pk_insert t new_task with
    | Except.error e => Except.error e
    | Except.ok t' => Except.ok (new_task, t')

/-- `destroy_task`: `delete(tasks.filter(id.eq(uid.to_string()))).execute(conn)`
— removes every row whose `id` equals the UID's string form and returns the
number of rows deleted. -/
def destroy_task (eng : Except String Unit) (t : Table) (uid : String) :
    Except String (Nat × Table) :=
  match eng with
  | Except.error e => Except.error e
  | Except.ok _ =>
    Except.ok ((t.filter fun row => row.id == uid).length,
               t.filter fun row => !(row.id == uid))

/-! ## HTTP layer, from `src/api/tasks.rs` -/

/-- The response shapes the four handlers produce.  `okMessage` is the
`web::Json(Response { message })` body of `delete_task` (HTTP 200);
`internalError` is `error::ErrorInternalServerError` (HTTP 500). -/
inductive ApiResponse where
  | okTasks (tasks : List Task)
  | okTask (task : Task)
  | okMessage (message : String)
  | createdTask (task : Task)
  | notFound (body : String)
  | internalError
deriving DecidableEq, Repr

/-- `GET /tasks` (`get_all_tasks`): pool checkout then `find_all_tasks`; any
error becomes an internal-error response, success is 200 with the JSON array. -/
def get_all_tasks (pool eng : Except String Unit) (t : Table) : ApiResponse :=
  match pool with
  | Except.error _ => ApiResponse.internalError
  | Except.ok _ =>
    match find_all_tasks eng t with
    | Except.error _ => ApiResponse.internalError
    | Except.ok tasks => ApiResponse.okTasks tasks

/-- `GET /task/{task_id}` (`get_task`): pool checkout then `find_task_by_uid`;
errors become internal-error, `Some task` becomes 200 JSON, `None` becomes a
404 with the `No task found with UID: {task_uid}` body. -/
def get_task (pool eng : Except String Unit) (t : Table) (uid : String) :
    ApiResponse :=
  match pool with
  | Except.error _ => ApiResponse.internalError
  | Except.ok _ =>
    match find_task_by_uid eng t uid with
    | Except.error _ => ApiResponse.internalError
    | Except.ok (some task) => ApiResponse.okTask task
    | Except.ok none => ApiResponse.notFound ("No task found with UID: " ++ uid)

/-- `POST /task` (`add_task`): pool checkout then `insert_new_task` on the
form's `name` and `done`; errors become internal-error, success is 201 with
the new row. -/
def add_task (pool eng : Except String Unit) (t : Table)
    (nm : String) (dn : Bool) (r : Nat) : ApiResponse × Table :=
  match pool with
  | Except.error _ => (ApiResponse.internalError, t)
  | Except.ok _ =>
    match insert_new_task eng t nm dn r with
    | Except.error _ => (ApiResponse.internalError, t)
    | Except.ok (task, t') => (ApiResponse.createdTask task, t')

/-- `DELETE /tasks/{task_id}` (`delete_task`): matches on the pool checkout and
on `destroy_task`; every arm returns `Ok(web::Json(Response { message }))`
(HTTP 200) — `"deleted"` on success, `err.to_string()` on either failure. -/
def delete_task (pool eng : Except String Unit) (t : Table) (uid : String) :
    ApiResponse × Table :=
  match pool with
  | Except.error e => (ApiResponse.okMessage e, t)
  | Except.ok _ =>
    match destroy_task eng t uid with
    | Except.error e => (ApiResponse.okMessage e, t)
    | Except.ok (_rows_deleted, t') => (ApiResponse.okMessage "deleted", t')

/-! ## Routing -/

/-- HTTP methods used by the handlers. -/
inductive Method where
  | get
  | post
  | delete
deriving DecidableEq, Repr

/-- A route: method and path pattern, as written in the actix attribute. -/
structure Route where
  method : Method
  path : String
deriving DecidableEq, Repr

/-- The four route-annotated handlers of `src/api/tasks.rs`, in file order:
`#[get("/tasks")]`, `#[delete("/tasks/{task_id}")]`, `#[get("/task/{task_id}")]`,
`#[post("/task")]`. -/
def api_tasks_routes : List Route :=
  [⟨Method.get, "/tasks"⟩,
   ⟨Method.delete, "/tasks/{task_id}"⟩,
   ⟨Method.get, "/task/{task_id}"⟩,
   ⟨Method.post, "/task"⟩]

/-- The services registered on the `App` in `main` (`src/main.rs`, lines
81-90): `.service(get_task).service(add_task)` — the two handlers defined in
`main.rs` itself (`#[get("/task/{task_id}")]`, `#[post("/task")]`); `main.rs`
declares `mod actions; mod models; mod schema;` and never mounts the
`api::tasks` module. -/
def main_registered_routes : List Route :=
  [⟨Method.get, "/task/{task_id}"⟩,
   ⟨Method.post, "/task"⟩]

/-- Whether a response is a not-found response. -/
def isNotFound : ApiResponse → Bool
  | ApiResponse.notFound _ => true
  | _ => false

/-- Whether a response is an internal-error response. -/
def isInternalError : ApiResponse → Bool
  | ApiResponse.internalError => true
  | _ => false

/-- How many SQL statements the handler of each route in `src/api/tasks.rs`
executes through Diesel: `get_all_tasks` one `SELECT` (`load`), `delete_task`
one `DELETE` (`execute`), `get_task` one `SELECT` (`first`), `add_task` one
`INSERT` (`execute`); each handler calls exactly one function of
`src/actions.rs`, and each such function contains exactly one query
expression. -/
def handler_statement_count (route : Route) : Nat :=
  match route with
  | ⟨Method.get, "/tasks"⟩ => 1
  | ⟨Method.delete, "/tasks/{task_id}"⟩ => 1
  | ⟨Method.get, "/task/{task_id}"⟩ => 1
  | ⟨Method.post, "/task"⟩ => 1
  | _ => 0

/-! ## Startup, from `src/main.rs` (`initialize_db_pool`)

`databaseUrl` is the value of the `DATABASE_URL` environment variable
(`none` when unset); `build` is the r2d2 pool builder (`none` when building
fails).  `Except.error` carries the panic message of the `expect` that fires. -/

/-- `initialize_db_pool`, from `src/main.rs` lines 99-105 (identical in
`src/tests/mod.rs`). -/
def initialize_db_pool {P : Type} (databaseUrl : Option String)
    (build : String → Option P) : Except String P :=
  match databaseUrl with
  | none => Except.error "DATABASE_URL should be set"
  | some conn_spec =>
    match build conn_spec with
    | none => Except.error "database URL should be valid path to SQLite DB file"
    | some pool => Except.ok pool

/-! ## Reachable states

States of the `tasks` table reachable from empty through the write
operations (the reads do not change the table). -/

/-- A table is reachable when it arises from the empty table by successful
inserts (any name, done flag and random draw) and deletes (any UID). -/
inductive Reachable : Table → Prop where
  | init : Reachable []
  | insert (t t' : Table) (task : Task) (nm : String) (dn : Bool) (r : Nat) :
      Reachable t →
      insert_new_task (Except.ok ()) t nm dn r = Except.ok (task, t') →
      Reachable t'
  | delete (t : Table) (uid : String) (n : Nat) (t' : Table) :
      Reachable t →
      destroy_task (Except.ok ()) t uid = Except.ok (n, t') →
      Reachable t'

/-! ## Theorems -/

/-- Helper: inserting with a fresh identifier succeeds and appends the built
row. -/
theorem insert_new_task_ok_of_fresh (t : Table) (nm : String) (dn : Bool)
    (r : Nat) (hfresh : ∀ row ∈ t, row.id ≠ uuid_new_v4 r) :
    insert_new_task (Except.ok ()) t nm dn r
      = Except.ok ((⟨uuid_new_v4 r, nm, dn⟩ : Task),
                   t ++ [(⟨uuid_new_v4 r, nm, dn⟩ : Task)]) := by
  have hany : (t.any fun row => row.id == uuid_new_v4 r) = false := by
    rw [List.any_eq_false]
    intro row hrow
    simpa using hfresh row hrow
  simp [insert_new_task, pk_insert, hany]

/-- Helper: a successful insert implies the generated identifier was fresh,
and the result is the built row appended to the table. -/
theorem insert_new_task_ok_elim (t : Table) (nm : String) (dn : Bool) (r : Nat)
    (task : Task) (t' : Table)
    (h : insert_new_task (Except.ok ()) t nm dn r = Except.ok (task, t')) :
    (∀ row ∈ t, row.id ≠ uuid_new_v4 r) ∧
      task = (⟨uuid_new_v4 r, nm, dn⟩ : Task) ∧
      t' = t ++ [(⟨uuid_new_v4 r, nm, dn⟩ : Task)] := by
  cases hany : (t.any fun row => row.id == uuid_new_v4 r) with
  | true =>
    exfalso
    simp [insert_new_task, pk_insert, hany] at h
  | false =>
    simp [insert_new_task, pk_insert, hany] at h
    rw [List.any_eq_false] at hany
    refine ⟨fun row hrow => by simpa using hany row hrow, ?_, ?_⟩
    · exact h.1.symm
    · exact h.2.symm

/-- C6: for every state of the tasks table, the list-tasks endpoint returns
every stored task — the full table, unfiltered and untruncated — as a 200
response with the JSON array, and the underlying `find_all_tasks` query
returns the whole table. -/
theorem c6_list_returns_everything (t : Table) :
    get_all_tasks (Except.ok ()) (Except.ok ()) t = ApiResponse.okTasks t ∧
    find_all_tasks (Except.ok ()) t = Except.ok t := by
  exact ⟨rfl, rfl⟩

/-- C7: the delete-task operation removes exactly the rows whose `id` equals
the UID's string form: a row survives iff it was stored and its `id` differs
from the UID, and the surviving table is a sublist of the original (every
other row is unchanged, in its original order; nothing else is modified). -/
theorem c7_delete_frame (t : Table) (uid : String) :
    (∀ row : Task,
        row ∈ (delete_task (Except.ok ()) (Except.ok ()) t uid).2 ↔
          row ∈ t ∧ row.id ≠ uid) ∧
    ((delete_task (Except.ok ()) (Except.ok ()) t uid).2).Sublist t := by
  have h2 : (delete_task (Except.ok ()) (Except.ok ()) t uid).2
      = t.filter fun row => !(row.id == uid) := rfl
  constructor
  · intro row
    rw [h2]
    simp [List.mem_filter]
  · rw [h2]
    exact List.filter_sublist t

/-- C9: a delete request that reaches the database without a query error
returns the 200 body message "deleted" for every UID, whether or not any row
matched; and when no stored row carries the UID, the table is left unchanged. -/
theorem c9_delete_nonexistent_ok (t : Table) (uid : String) :
    (delete_task (Except.ok ()) (Except.ok ()) t uid).1
        = ApiResponse.okMessage "deleted" ∧
    ((∀ row ∈ t, row.id ≠ uid) →
        (delete_task (Except.ok ()) (Except.ok ()) t uid).2 = t) := by
  refine ⟨rfl, fun h => ?_⟩
  have h2 : (delete_task (Except.ok ()) (Except.ok ()) t uid).2
      = t.filter fun row => !(row.id == uid) := rfl
  rw [h2, List.filter_eq_self]
  intro row hrow
  simpa using h row hrow

/-- Witness for C9 at a concrete table and a UID matching no row. -/
theorem c9_delete_nonexistent_ok_witness :
    (delete_task (Except.ok ()) (Except.ok ())
        [(⟨"aa", "x", true⟩ : Task)] "bb").1 = ApiResponse.okMessage "deleted" ∧
    (delete_task (Except.ok ()) (Except.ok ())
        [(⟨"aa", "x", true⟩ : Task)] "bb").2 = [(⟨"aa", "x", true⟩ : Task)] :=
  ⟨(c9_delete_nonexistent_ok [(⟨"aa", "x", true⟩ : Task)] "bb").1,
   (c9_delete_nonexistent_ok [(⟨"aa", "x", true⟩ : Task)] "bb").2 (by decide)⟩

/-- C1: for every task UID, the get-task endpoint returns 200 with the stored
task when a row whose `id` equals the UID's string form exists (and that row
is unique), and a 404 not-found response with the `No task found` message when
no such row exists; in the latter case the query layer reports the missing row
as `none`, not as a query error. -/
theorem c1_get_task_found_or_404 (t : Table) (uid : String) :
    (∀ task : Task, task ∈ t → task.id = uid →
        (∀ other ∈ t, other.id = uid → other = task) →
        get_task (Except.ok ()) (Except.ok ()) t uid = ApiResponse.okTask task) ∧
    ((∀ task ∈ t, task.id ≠ uid) →
        get_task (Except.ok ()) (Except.ok ()) t uid
            = ApiResponse.notFound ("No task found with UID: " ++ uid) ∧
        find_task_by_uid (Except.ok ()) t uid = Except.ok none) := by
  constructor
  · intro task htask hid huniq
    have hmem : task ∈ t.filter fun row => row.id == uid :=
      List.mem_filter.mpr ⟨htask, by simp [hid]⟩
    cases hf : t.filter fun row => row.id == uid with
    | nil =>
      rw [hf] at hmem
      cases hmem
    | cons a as =>
      have ha : a ∈ t.filter fun row => row.id == uid := by
        rw [hf]
        exact List.mem_cons_self a as
      have ham := List.mem_filter.mp ha
      have hat : a = task := huniq a ham.1 (by simpa using ham.2)
      simp [get_task, find_task_by_uid, hf, hat]
  · intro hnone
    have hf : (t.filter fun row => row.id == uid) = [] := by
      rw [List.filter_eq_nil_iff]
      intro a ha
      simpa using hnone a ha
    constructor
    · simp [get_task, find_task_by_uid, hf]
    · simp [find_task_by_uid, hf]

/-- Witness for C1: a singleton table, looked up at its own id and at an
absent id. -/
theorem c1_get_task_found_or_404_witness :
    get_task (Except.ok ()) (Except.ok ()) [(⟨"u1", "a", false⟩ : Task)] "u1"
        = ApiResponse.okTask (⟨"u1", "a", false⟩ : Task) ∧
    get_task (Except.ok ()) (Except.ok ()) [(⟨"u1", "a", false⟩ : Task)] "zz"
        = ApiResponse.notFound ("No task found with UID: " ++ "zz") :=
  ⟨(c1_get_task_found_or_404 [(⟨"u1", "a", false⟩ : Task)] "u1").1
      (⟨"u1", "a", false⟩ : Task) (by decide) rfl (by decide),
   ((c1_get_task_found_or_404 [(⟨"u1", "a", false⟩ : Task)] "zz").2 (by decide)).1⟩

/-- C3 counterexample: the delete endpoint, failing at the pool layer, answers
with a 200 JSON message carrying the error text — a response that is neither
a not-found nor an internal-error response. -/
theorem c3_counterexample_delete_pool_error :
    (delete_task (Except.error "connection pool timed out") (Except.ok ())
        [] "abc").1 = ApiResponse.okMessage "connection pool timed out" ∧
    isNotFound (ApiResponse.okMessage "connection pool timed out") = false ∧
    isInternalError (ApiResponse.okMessage "connection pool timed out") = false :=
  ⟨rfl, rfl, rfl⟩

/-- C3 amended: the list, get and create endpoints report every pool- or
database-layer failure as an internal-error response, and each of them
produces only its success shape, not-found (get only) or internal-error; the
delete endpoint instead answers every pool- or database-layer failure with a
200 JSON message carrying the error's text, and all its responses are 200
messages. -/
theorem c3_amended_error_taxonomy (pool eng : Except String Unit) (t : Table)
    (uid nm : String) (dn : Bool) (r : Nat) (e : String) :
    get_all_tasks (Except.error e) eng t = ApiResponse.internalError ∧
    get_all_tasks (Except.ok ()) (Except.error e) t = ApiResponse.internalError ∧
    get_task (Except.error e) eng t uid = ApiResponse.internalError ∧
    get_task (Except.ok ()) (Except.error e) t uid = ApiResponse.internalError ∧
    (add_task (Except.error e) eng t nm dn r).1 = ApiResponse.internalError ∧
    (add_task (Except.ok ()) (Except.error e) t nm dn r).1
        = ApiResponse.internalError ∧
    (delete_task (Except.error e) eng t uid).1 = ApiResponse.okMessage e ∧
    (delete_task (Except.ok ()) (Except.error e) t uid).1
        = ApiResponse.okMessage e ∧
    ((∃ tasks, get_all_tasks pool eng t = ApiResponse.okTasks tasks) ∨
        get_all_tasks pool eng t = ApiResponse.internalError) ∧
    ((∃ task, get_task pool eng t uid = ApiResponse.okTask task) ∨
        (∃ b, get_task pool eng t uid = ApiResponse.notFound b) ∨
        get_task pool eng t uid = ApiResponse.internalError) ∧
    ((∃ task, (add_task pool eng t nm dn r).1 = ApiResponse.createdTask task) ∨
        (add_task pool eng t nm dn r).1 = ApiResponse.internalError) ∧
    (∃ m, (delete_task pool eng t uid).1 = ApiResponse.okMessage m) := by
  refine ⟨rfl, rfl, rfl, rfl, rfl, rfl, rfl, rfl, ?_, ?_, ?_, ?_⟩
  · cases pool with
    | error e2 => exact Or.inr rfl
    | ok u =>
      cases eng with
      | error e2 => exact Or.inr rfl
      | ok v => exact Or.inl ⟨t, rfl⟩
  · cases pool with
    | error e2 => exact Or.inr (Or.inr rfl)
    | ok u =>
      cases eng with
      | error e2 => exact Or.inr (Or.inr rfl)
      | ok v =>
        cases hh : (t.filter fun row => row.id == uid).head? with
        | some task =>
          exact Or.inl ⟨task, by simp [get_task, find_task_by_uid, hh]⟩
        | none =>
          exact Or.inr (Or.inl ⟨"No task found with UID: " ++ uid,
            by simp [get_task, find_task_by_uid, hh]⟩)
  · cases pool with
    | error e2 => exact Or.inr rfl
    | ok u =>
      cases hi : insert_new_task eng t nm dn r with
      | error e2 => exact Or.inr (by simp [add_task, hi])
      | ok p =>
        obtain ⟨task, t2⟩ := p
        exact Or.inl ⟨task, by simp [add_task, hi]⟩
  · cases pool with
    | error e2 => exact ⟨e2, rfl⟩
    | ok u =>
      cases hd : destroy_task eng t uid with
      | error e2 => exact ⟨e2, by simp [delete_task, hd]⟩
      | ok p =>
        obtain ⟨n2, t2⟩ := p
        exact ⟨"deleted", by simp [delete_task, hd]⟩

/-- C5 counterexample: the `App` assembled in `main` registers two services,
and neither the list route nor the delete route is among them — the running
system does not expose four endpoints. -/
theorem c5_counterexample_two_routes_registered :
    main_registered_routes.length = 2 ∧
    (⟨Method.get, "/tasks"⟩ : Route) ∉ main_registered_routes ∧
    (⟨Method.delete, "/tasks/{task_id}"⟩ : Route) ∉ main_registered_routes := by
  refine ⟨rfl, by decide, by decide⟩

/-- C5 amended: the api module defines exactly four distinct REST endpoint
handlers — list (GET /tasks), delete (DELETE /tasks/{task_id}), get
(GET /task/{task_id}), create (POST /task) — each executing exactly one
parameterized SQL statement, but `main` registers only the two handlers
defined in `main.rs` itself (GET /task/{task_id} and POST /task), both of
whose routes coincide with two of the four. -/
theorem c5_amended_four_defined_two_registered :
    api_tasks_routes.length = 4 ∧
    api_tasks_routes.Nodup ∧
    main_registered_routes
        = [(⟨Method.get, "/task/{task_id}"⟩ : Route),
           (⟨Method.post, "/task"⟩ : Route)] ∧
    (∀ route ∈ main_registered_routes, route ∈ api_tasks_routes) ∧
    (∀ route ∈ api_tasks_routes, handler_statement_count route = 1) := by
  refine ⟨rfl, by decide, rfl, by decide, by decide⟩

/-- C8: the pool is initialized from the `DATABASE_URL` environment variable,
and `initialize_db_pool` panics if and only if that variable is unset or the
pool cannot be built from its value; when it is set and the pool builds, the
pool is returned and the server proceeds to serve. -/
theorem c8_init_pool_panics_iff {P : Type} (databaseUrl : Option String)
    (build : String → Option P) :
    ((∃ e, initialize_db_pool databaseUrl build = Except.error e) ↔
        (databaseUrl = none ∨ ∃ u, databaseUrl = some u ∧ build u = none)) ∧
    initialize_db_pool none build
        = Except.error "DATABASE_URL should be set" ∧
    (∀ u, build u = none →
        initialize_db_pool (some u) build
          = Except.error "database URL should be valid path to SQLite DB file") ∧
    (∀ u p, build u = some p →
        initialize_db_pool (some u) build = Except.ok p) := by
  refine ⟨?_, rfl, ?_, ?_⟩
  · cases databaseUrl with
    | none => simp [initialize_db_pool]
    | some u =>
      cases hb : build u with
      | none => simp [initialize_db_pool, hb]
      | some p => simp [initialize_db_pool, hb]
  · intro u hu
    simp [initialize_db_pool, hu]
  · intro u p hp
    simp [initialize_db_pool, hp]

/-- Witness for C8: a concrete URL with a failing builder panics with the
build message; with a succeeding builder the pool is returned. -/
theorem c8_init_pool_panics_iff_witness :
    initialize_db_pool (some "file.db") (fun _ => (none : Option Nat))
        = Except.error "database URL should be valid path to SQLite DB file" ∧
    initialize_db_pool (some "file.db") (fun s => some s.length)
        = Except.ok 7 :=
  ⟨(c8_init_pool_panics_iff (some "file.db")
        (fun _ => (none : Option Nat))).2.2.1 "file.db" rfl,
   (c8_init_pool_panics_iff (some "file.db")
        (fun s => some s.length)).2.2.2 "file.db" 7 rfl⟩

/-- Helper: the rendered v4 UUID has the version digit `4` as its 15th
character — the character right after the second hyphen, at position 14. -/
theorem uuid_new_v4_version (r : Nat) :
    ∃ pre post : List Char,
      (uuid_new_v4 r).data = pre ++ '4' :: post ∧ pre.length = 14 := by
  have h4 : (uuidByte r 6 % 16 + 64) / 16 % 16 = 4 := by omega
  have hc : hexDigit ((uuidByte r 6 % 16 + 64) / 16 % 16) = '4' := by
    rw [h4]
    rfl
  refine ⟨bytesHexChars [uuidByte r 0, uuidByte r 1, uuidByte r 2, uuidByte r 3]
        ++ Char.ofNat 45 :: bytesHexChars [uuidByte r 4, uuidByte r 5]
        ++ [Char.ofNat 45],
      hexDigit ((uuidByte r 6 % 16 + 64) % 16)
        :: bytesHexChars [uuidByte r 7]
        ++ Char.ofNat 45 :: bytesHexChars [uuidByte r 8 % 64 + 128, uuidByte r 9]
        ++ Char.ofNat 45 :: bytesHexChars [uuidByte r 10, uuidByte r 11,
             uuidByte r 12, uuidByte r 13, uuidByte r 14, uuidByte r 15],
      ?_, ?_⟩
  · show uuidV4Chars r = _
    rw [← hc]
    simp [uuidV4Chars, bytesHexChars, byteHexChars]
  · simp [bytesHexChars, byteHexChars]

/-- C2: a create request with a fresh random draw inserts exactly one row —
the table becomes the old table plus the built row — and answers 201 with a
task whose `name` and `done` are the submitted fields unchanged and whose `id`
is the rendered UUID of the draw: a 36-character string whose version digit
(position 14) is `4`. -/
theorem c2_create_inserts_one_row (t : Table) (nm : String) (dn : Bool)
    (r : Nat) (hfresh : ∀ row ∈ t, row.id ≠ uuid_new_v4 r) :
    add_task (Except.ok ()) (Except.ok ()) t nm dn r
        = (ApiResponse.createdTask (⟨uuid_new_v4 r, nm, dn⟩ : Task),
           t ++ [(⟨uuid_new_v4 r, nm, dn⟩ : Task)]) ∧
    (uuid_new_v4 r).length = 36 ∧
    (∃ pre post : List Char,
        (uuid_new_v4 r).data = pre ++ '4' :: post ∧ pre.length = 14) := by
  refine ⟨?_, ?_, uuid_new_v4_version r⟩
  · simp [add_task, insert_new_task_ok_of_fresh t nm dn r hfresh]
  · show (uuidV4Chars r).length = 36
    simp [uuidV4Chars, bytesHexChars, byteHexChars]

/-- Witness for C2: creating a task in the empty table with draw 0. -/
theorem c2_create_inserts_one_row_witness :
    add_task (Except.ok ()) (Except.ok ()) [] "Test task" false 0
        = (ApiResponse.createdTask
             (⟨uuid_new_v4 0, "Test task", false⟩ : Task),
           [(⟨uuid_new_v4 0, "Test task", false⟩ : Task)]) ∧
    (uuid_new_v4 0).length = 36 :=
  ⟨(c2_create_inserts_one_row [] "Test task" false 0 (by simp)).1,
   (c2_create_inserts_one_row [] "Test task" false 0 (by simp)).2.1⟩

/-- C4: in every reachable state of the tasks table, identifiers are pairwise
distinct.  The proof needs no uniqueness check in the application code: the
insert case holds because a successful `insert_new_task` implies the freshly
generated UUID hit no stored row (otherwise the engine's primary key rejects
the insert), and the delete case holds because deleting preserves a sublist. -/
theorem c4_ids_unique (t : Table) (h : Reachable t) :
    (t.map Task.id).Nodup := by
  induction h with
  | init => simp
  | insert t0 t' task nm dn r hre hins ih =>
    obtain ⟨hfresh, -, ht'⟩ := insert_new_task_ok_elim t0 nm dn r task t' hins
    subst ht'
    rw [List.map_append]
    refine List.Nodup.append ih (by simp) ?_
    intro x hx hx2
    simp at hx2
    subst hx2
    obtain ⟨row, hrow, hid⟩ := List.mem_map.mp hx
    exact hfresh row hrow hid
  | delete t0 uid n t' hre hdel ih =>
    simp [destroy_task] at hdel
    obtain ⟨-, ht'⟩ := hdel
    subst ht'
    exact ih.sublist ((List.filter_sublist t0).map Task.id)

/-- Witness for C4: the table reached by one insert into the empty table. -/
theorem c4_ids_unique_witness :
    (([(⟨uuid_new_v4 0, "a", false⟩ : Task)] : Table).map Task.id).Nodup :=
  c4_ids_unique [(⟨uuid_new_v4 0, "a", false⟩ : Task)]
    (Reachable.insert [] [(⟨uuid_new_v4 0, "a", false⟩ : Task)]
      (⟨uuid_new_v4 0, "a", false⟩ : Task) "a" false 0 Reachable.init
      (insert_new_task_ok_of_fresh [] "a" false 0 (by simp)))

/-- C10: create-then-get round-trip — inserting a task and looking up the
identifier of the task the insert returned yields `Some` of exactly that
task, with the same id, name and done. -/
theorem c10_insert_then_get (t : Table) (nm : String) (dn : Bool) (r : Nat)
    (task : Task) (t' : Table)
    (h : insert_new_task (Except.ok ()) t nm dn r = Except.ok (task, t')) :
    find_task_by_uid (Except.ok ()) t' task.id = Except.ok (some task) := by
  obtain ⟨hfresh, htask, ht'⟩ := insert_new_task_ok_elim t nm dn r task t' h
  subst htask
  subst ht'
  have h1 : t.filter (fun row => row.id == uuid_new_v4 r) = [] := by
    rw [List.filter_eq_nil_iff]
    intro a ha
    simpa using hfresh a ha
  simp [find_task_by_uid, List.filter_append, h1]

/-- Witness for C10: insert into the empty table with draw 0, then look the
returned id up. -/
theorem c10_insert_then_get_witness :
    find_task_by_uid (Except.ok ()) [(⟨uuid_new_v4 0, "a", true⟩ : Task)]
        (Task.id (⟨uuid_new_v4 0, "a", true⟩ : Task))
      = Except.ok (some (⟨uuid_new_v4 0, "a", true⟩ : Task)) :=
  c10_insert_then_get [] "a" true 0 (⟨uuid_new_v4 0, "a", true⟩ : Task)
    [(⟨uuid_new_v4 0, "a", true⟩ : Task)]
    (insert_new_task_ok_of_fresh [] "a" true 0 (by simp))

end TodoApp
